import Mathlib

/-!
Verification of the Cinescope FDX script parser (`src/script_parser.py`).

The program is a linear classification pass over an already-decoded
sequence of (paragraph_type, plain_text) records, threading one piece of
state: the most recently emitted Character element.  We embed the data
model (`ScriptElement`, `Paragraph`), the per-paragraph transition
(`processParagraph`, mirroring the if/elif chain of
`ScriptParser.parse_file`), the classification loop (`parseLoop`), and the
boundary behaviour of `parse_file` over the possible outcomes of the
external `read_fdx` call (`ReadResult`).
-/

namespace Cinescope

/-- One decoded unit of the source document, as produced by the external
`fdx` library: a classification label and plain text. -/
structure Paragraph where
  paragraph_type : String
  plain_text : String
  deriving DecidableEq, Repr

/-- Mirror of the Python `ScriptElement` class: a type tag plus optional
payload fields, each defaulting to `None`. -/
structure ScriptElement where
  type : String
  text : Option String := none
  character_name : Option String := none
  dialogue_text : Option String := none
  original_line_num : Option Nat := none
  deriving DecidableEq, Repr

/-- Default element used only as the `List.getD` fallback in statements. -/
def dflt : ScriptElement := { type := "" }

/-- One step of the classification loop in `ScriptParser.parse_file`
(lines 78-145): given the current-character state `cur` and the 1-based
line number, process one paragraph, returning the emitted element, the new
state, and whether the dialogue-without-character warning was printed. -/
def processParagraph (cur : Option ScriptElement) (line_number : Nat)
    (p : Paragraph) : ScriptElement × Option ScriptElement × Bool :=
  if p.paragraph_type = "Scene Heading" then
    ({ type := "scene_heading", text := some p.plain_text,
       original_line_num := some line_number }, none, false)
  else if p.paragraph_type = "Character" then
    let new_character_element : ScriptElement :=
      { type := "character", character_name := some p.plain_text,
        original_line_num := some line_number }
    (new_character_element, some new_character_element, false)
  else if p.paragraph_type = "Parenthetical" then
    ({ type := "parenthetical", text := some p.plain_text,
       original_line_num := some line_number }, cur, false)
  else if p.paragraph_type = "Dialogue" then
    match cur with
    | some ce =>
        ({ type := "dialogue", character_name := ce.character_name,
           dialogue_text := some p.plain_text, text := some p.plain_text,
           original_line_num := some line_number }, none, false)
    | none =>
        ({ type := "action", text := some p.plain_text,
           original_line_num := some line_number }, none, true)
  else if p.paragraph_type = "Action" then
    ({ type := "action", text := some p.plain_text,
       original_line_num := some line_number }, none, false)
  else if p.paragraph_type = "Transition" then
    ({ type := "transition", text := some p.plain_text,
       original_line_num := some line_number }, none, false)
  else
    ({ type := "action", text := some p.plain_text,
       original_line_num := some line_number }, none, false)

/-- The `for fdx_paragraph in screenplay.paragraphs` loop: `line_number`
is incremented before each paragraph is processed.  Returns the emitted
elements in order together with the line numbers at which the
dialogue-without-character warning fired. -/
def parseLoop : List Paragraph → Option ScriptElement → Nat →
    List ScriptElement × List Nat
  | [], _, _ => ([], [])
  | p :: ps, cur, line_number =>
    let step := processParagraph cur (line_number + 1) p
    let rest := parseLoop ps step.2.1 (line_number + 1)
    (step.1 :: rest.1,
     (if step.2.2 then [line_number + 1] else []) ++ rest.2)

/-- Mirror of the Python `FinalDraft` object as used here: the
`paragraphs` attribute may be missing (`hasattr` check, line 67). -/
structure FinalDraft where
  paragraphs : Option (List Paragraph)

/-- Outcome of the external `read_fdx` call at the boundary of
`parse_file`: it may raise `FileNotFoundError`, raise some other
exception, return `None`, or return a screenplay object. -/
inductive ReadResult where
  | fileNotFoundError
  | otherException
  | returnedNone
  | screenplay (s : FinalDraft)

/-- The diagnostics `parse_file` prints: one per failure kind, plus the
per-line dialogue-without-character warning (line 114). -/
inductive ParseDiag where
  | scriptFileNotFound
  | parsingError
  | readFdxReturnedNone
  | missingParagraphsAttr
  | dialogueWithoutCharacter (line_number : Nat)
  deriving DecidableEq, Repr

/-- `ScriptParser.parse_file` (lines 46-155): resets the state, obtains
the `read_fdx` outcome, handles each failure with an empty result plus a
diagnostic, and otherwise runs the classification loop starting from an
empty current-character state and `line_number = 0`. -/
def ScriptParser.parse_file (r : ReadResult) :
    List ScriptElement × List ParseDiag :=
  match r with
  | .fileNotFoundError => ([], [.scriptFileNotFound])
  | .otherException => ([], [.parsingError])
  | .returnedNone => ([], [.readFdxReturnedNone])
  | .screenplay s =>
    match s.paragraphs with
    | none => ([], [.missingParagraphsAttr])
    | some ps =>
      let r := parseLoop ps none 0
      (r.1, r.2.map ParseDiag.dialogueWithoutCharacter)

/-- The element sequence `parse_file` returns on a successfully decoded
paragraph list. -/
def ScriptParser.parseElements (ps : List Paragraph) : List ScriptElement :=
  (ScriptParser.parse_file (.screenplay ⟨some ps⟩)).1

lemma parseElements_eq (ps : List Paragraph) :
    ScriptParser.parseElements ps = (parseLoop ps none 0).1 := rfl

lemma parseLoop_cons (p : Paragraph) (ps : List Paragraph)
    (cur : Option ScriptElement) (ln : Nat) :
    (parseLoop (p :: ps) cur ln).1 =
      (processParagraph cur (ln + 1) p).1 ::
        (parseLoop ps (processParagraph cur (ln + 1) p).2.1 (ln + 1)).1 := rfl

/-- One emitted element per paragraph. -/
lemma parseLoop_length (ps : List Paragraph) (cur : Option ScriptElement)
    (ln : Nat) : (parseLoop ps cur ln).1.length = ps.length := by
  induction ps generalizing cur ln with
  | nil => rfl
  | cons p ps ih =>
    rw [parseLoop_cons, List.length_cons, List.length_cons, ih]

/-- After one step the new state is empty, or the paragraph was a
Parenthetical and the state is untouched, or the paragraph was a Character
and the state is the freshly emitted character element. -/
lemma processParagraph_state (cur : Option ScriptElement) (ln : Nat)
    (p : Paragraph) :
    (processParagraph cur ln p).2.1 = none ∨
    ((processParagraph cur ln p).2.1 = cur ∧
      (processParagraph cur ln p).1.type = "parenthetical") ∨
    ((processParagraph cur ln p).2.1 = some (processParagraph cur ln p).1 ∧
      (processParagraph cur ln p).1.type = "character") := by
  rcases cur with _ | ce <;> unfold processParagraph <;> split_ifs <;> simp_all

/-- A dialogue element is only emitted when the state holds a character
element, and it copies that element's name. -/
lemma processParagraph_dialogue (cur : Option ScriptElement) (ln : Nat)
    (p : Paragraph) (h : (processParagraph cur ln p).1.type = "dialogue") :
    ∃ ce, cur = some ce ∧
      (processParagraph cur ln p).1.character_name = ce.character_name := by
  rcases cur with _ | ce <;> unfold processParagraph at h ⊢ <;>
    split_ifs at h ⊢ <;> simp_all

/-- The emitted element records the line number it was given. -/
lemma processParagraph_line (cur : Option ScriptElement) (ln : Nat)
    (p : Paragraph) :
    (processParagraph cur ln p).1.original_line_num = some ln := by
  rcases cur with _ | ce <;> unfold processParagraph <;> split_ifs <;> rfl

lemma parseLoop_line_num (ps : List Paragraph) (cur : Option ScriptElement)
    (ln i : Nat) (h : i < (parseLoop ps cur ln).1.length) :
    ((parseLoop ps cur ln).1.getD i dflt).original_line_num =
      some (ln + i + 1) := by
  induction ps generalizing cur ln i with
  | nil => simp [parseLoop] at h
  | cons p ps ih =>
    rw [parseLoop_cons] at h ⊢
    cases i with
    | zero => simpa using processParagraph_line cur (ln + 1) p
    | succ i =>
      rw [List.getD_cons_succ]
      rw [List.length_cons, Nat.succ_lt_succ_iff] at h
      rw [ih _ _ _ h]
      ring_nf

/-- Generalized dialogue-attribution invariant for the loop started in an
arbitrary state: a dialogue element is named either by a character element
emitted earlier in this very run, with only parentheticals in between, or
by the character element the state held on entry, with only parentheticals
before the dialogue. -/
lemma parseLoop_dialogue_aux (ps : List Paragraph) :
    ∀ (cur : Option ScriptElement) (ln i : Nat),
      i < (parseLoop ps cur ln).1.length →
      ((parseLoop ps cur ln).1.getD i dflt).type = "dialogue" →
      (∃ j, j < i ∧
        ((parseLoop ps cur ln).1.getD j dflt).type = "character" ∧
        ((parseLoop ps cur ln).1.getD j dflt).character_name =
          ((parseLoop ps cur ln).1.getD i dflt).character_name ∧
        ∀ k, j < k → k < i →
          ((parseLoop ps cur ln).1.getD k dflt).type = "parenthetical") ∨
      (∃ ce, cur = some ce ∧
        ce.character_name =
          ((parseLoop ps cur ln).1.getD i dflt).character_name ∧
        ∀ k, k < i →
          ((parseLoop ps cur ln).1.getD k dflt).type = "parenthetical") := by
  induction ps with
  | nil => intro cur ln i hi; simp [parseLoop] at hi
  | cons p ps ih =>
    intro cur ln i hi hd
    rw [parseLoop_cons] at hi hd ⊢
    cases i with
    | zero =>
      rw [List.getD_cons_zero] at hd ⊢
      obtain ⟨ce, hce, hname⟩ := processParagraph_dialogue cur (ln + 1) p hd
      exact Or.inr ⟨ce, hce, hname.symm,
        fun k hk => absurd hk (Nat.not_lt_zero k)⟩
    | succ i =>
      rw [List.length_cons, Nat.succ_lt_succ_iff] at hi
      rw [List.getD_cons_succ] at hd ⊢
      rcases ih _ _ i hi hd with
        ⟨j, hj, hjt, hjn, hjk⟩ | ⟨ce, hce, hname, hpar⟩
      · refine Or.inl ⟨j + 1, Nat.succ_lt_succ hj, ?_, ?_, ?_⟩
        · rw [List.getD_cons_succ]; exact hjt
        · rw [List.getD_cons_succ]; exact hjn
        · intro k hk1 hk2
          cases k with
          | zero => omega
          | succ k =>
            rw [List.getD_cons_succ]
            exact hjk k (by omega) (by omega)
      · rcases processParagraph_state cur (ln + 1) p with
          h0 | ⟨hst, hpt⟩ | ⟨hst, hpt⟩
        · rw [h0] at hce; simp at hce
        · refine Or.inr ⟨ce, by rw [← hst]; exact hce, hname, ?_⟩
          intro k hk
          cases k with
          | zero => rw [List.getD_cons_zero]; exact hpt
          | succ k => rw [List.getD_cons_succ]; exact hpar k (by omega)
        · rw [hst] at hce
          injection hce with hh
          subst hh
          refine Or.inl ⟨0, Nat.succ_pos i, ?_, ?_, ?_⟩
          · rw [List.getD_cons_zero]; exact hpt
          · rw [List.getD_cons_zero]; exact hname
          · intro k hk1 hk2
            cases k with
            | zero => omega
            | succ k => rw [List.getD_cons_succ]; exact hpar k (by omega)

/-- C1: every dialogue element in the output is attributed to a character
name already emitted as a character element strictly earlier in the output,
and between that character element and the dialogue only parentheticals
occur (no Action, Transition, Scene Heading, or Dialogue element cleared
the state in between). -/
theorem dialogue_attribution_invariant (ps : List Paragraph) (i : Nat)
    (hi : i < (ScriptParser.parseElements ps).length)
    (hd : ((ScriptParser.parseElements ps).getD i dflt).type = "dialogue") :
    ∃ j, j < i ∧
      ((ScriptParser.parseElements ps).getD j dflt).type = "character" ∧
      ((ScriptParser.parseElements ps).getD j dflt).character_name =
        ((ScriptParser.parseElements ps).getD i dflt).character_name ∧
      ∀ k, j < k → k < i →
        ((ScriptParser.parseElements ps).getD k dflt).type =
          "parenthetical" := by
  rw [parseElements_eq] at hi hd ⊢
  rcases parseLoop_dialogue_aux ps none 0 i hi hd with h | ⟨ce, hce, _⟩
  · exact h
  · simp at hce

/-- C1 witnessed on [Character BOB, Parenthetical, Dialogue]: the dialogue
at position 2 is attributed to the character element at position 0. -/
theorem dialogue_attribution_invariant_witness :
    2 < (ScriptParser.parseElements
        [⟨"Character", "BOB"⟩, ⟨"Parenthetical", "(smiling)"⟩,
         ⟨"Dialogue", "Hi."⟩]).length ∧
    ((ScriptParser.parseElements
        [⟨"Character", "BOB"⟩, ⟨"Parenthetical", "(smiling)"⟩,
         ⟨"Dialogue", "Hi."⟩]).getD 2 dflt).type = "dialogue" ∧
    ∃ j, j < 2 ∧
      ((ScriptParser.parseElements
          [⟨"Character", "BOB"⟩, ⟨"Parenthetical", "(smiling)"⟩,
           ⟨"Dialogue", "Hi."⟩]).getD j dflt).type = "character" ∧
      ((ScriptParser.parseElements
          [⟨"Character", "BOB"⟩, ⟨"Parenthetical", "(smiling)"⟩,
           ⟨"Dialogue", "Hi."⟩]).getD j dflt).character_name =
        ((ScriptParser.parseElements
            [⟨"Character", "BOB"⟩, ⟨"Parenthetical", "(smiling)"⟩,
             ⟨"Dialogue", "Hi."⟩]).getD 2 dflt).character_name ∧
      ∀ k, j < k → k < 2 →
        ((ScriptParser.parseElements
            [⟨"Character", "BOB"⟩, ⟨"Parenthetical", "(smiling)"⟩,
             ⟨"Dialogue", "Hi."⟩]).getD k dflt).type = "parenthetical" :=
  ⟨by decide, by decide,
   dialogue_attribution_invariant
     [⟨"Character", "BOB"⟩, ⟨"Parenthetical", "(smiling)"⟩,
      ⟨"Dialogue", "Hi."⟩] 2 (by decide) (by decide)⟩

/-- C2: processing a Dialogue paragraph while the current-character state
is set emits Dialogue(state, text) and clears the state; in particular the
input [("Scene Heading","INT. ROOM"), ("Character","BOB"),
("Dialogue","Hi.")] produces exactly [SceneHeading("INT. ROOM"),
Character("BOB"), Dialogue("BOB","Hi.")] with no warning. -/
theorem dialogue_with_character :
    (∀ (ce : ScriptElement) (ln : Nat) (t : String),
      processParagraph (some ce) ln ⟨"Dialogue", t⟩ =
        ({ type := "dialogue", character_name := ce.character_name,
           dialogue_text := some t, text := some t,
           original_line_num := some ln }, none, false)) ∧
    ScriptParser.parse_file (.screenplay ⟨some
        [⟨"Scene Heading", "INT. ROOM"⟩, ⟨"Character", "BOB"⟩,
         ⟨"Dialogue", "Hi."⟩]⟩) =
      ([{ type := "scene_heading", text := some "INT. ROOM",
          original_line_num := some 1 },
        { type := "character", character_name := some "BOB",
          original_line_num := some 2 },
        { type := "dialogue", character_name := some "BOB",
          dialogue_text := some "Hi.", text := some "Hi.",
          original_line_num := some 3 }], []) :=
  ⟨fun _ _ _ => rfl, rfl⟩

/-- C3: a Dialogue paragraph with the current-character state empty is not
an error: it emits Action(text) as a fallback and surfaces a warning
signal, so [("Dialogue","Hi.")] with no prior character produces
[Action("Hi.")] plus a warning naming line 1. -/
theorem dialogue_without_character :
    (∀ (ln : Nat) (t : String),
      processParagraph none ln ⟨"Dialogue", t⟩ =
        ({ type := "action", text := some t,
           original_line_num := some ln }, none, true)) ∧
    ScriptParser.parse_file (.screenplay ⟨some [⟨"Dialogue", "Hi."⟩]⟩) =
      ([{ type := "action", text := some "Hi.",
          original_line_num := some 1 }],
       [.dialogueWithoutCharacter 1]) :=
  ⟨fun _ _ => rfl, rfl⟩

/-- C4: when the document cannot be located or decoded, or the decoded
document lacks the paragraph collection, parse_file yields an empty
element list and a single diagnostic; the four failure kinds produce four
pairwise distinct diagnostics, and no exception propagates (the embedded
operation is a total function). -/
theorem parse_file_failure_semantics :
    ScriptParser.parse_file .fileNotFoundError =
      ([], [.scriptFileNotFound]) ∧
    ScriptParser.parse_file .otherException = ([], [.parsingError]) ∧
    ScriptParser.parse_file .returnedNone = ([], [.readFdxReturnedNone]) ∧
    ScriptParser.parse_file (.screenplay ⟨none⟩) =
      ([], [.missingParagraphsAttr]) ∧
    ParseDiag.scriptFileNotFound ≠ ParseDiag.parsingError ∧
    ParseDiag.scriptFileNotFound ≠ ParseDiag.readFdxReturnedNone ∧
    ParseDiag.scriptFileNotFound ≠ ParseDiag.missingParagraphsAttr ∧
    ParseDiag.parsingError ≠ ParseDiag.readFdxReturnedNone ∧
    ParseDiag.parsingError ≠ ParseDiag.missingParagraphsAttr ∧
    ParseDiag.readFdxReturnedNone ≠ ParseDiag.missingParagraphsAttr := by
  refine ⟨rfl, rfl, rfl, rfl, ?_, ?_, ?_, ?_, ?_, ?_⟩ <;> decide

/-- C5: the output element sequence is never longer than the input
paragraph sequence. -/
theorem output_length_le_input (ps : List Paragraph) :
    (ScriptParser.parseElements ps).length ≤ ps.length := by
  rw [parseElements_eq, parseLoop_length]

/-- C6: a Parenthetical paragraph emits Parenthetical(text) and leaves the
current-character state unchanged, so [("Character","BOB"),
("Parenthetical","(smiling)"), ("Dialogue","Hi.")] yields Character,
Parenthetical, Dialogue("BOB","Hi."): the state survives the
parenthetical. -/
theorem parenthetical_keeps_state :
    (∀ (cur : Option ScriptElement) (ln : Nat) (t : String),
      processParagraph cur ln ⟨"Parenthetical", t⟩ =
        ({ type := "parenthetical", text := some t,
           original_line_num := some ln }, cur, false)) ∧
    ScriptParser.parse_file (.screenplay ⟨some
        [⟨"Character", "BOB"⟩, ⟨"Parenthetical", "(smiling)"⟩,
         ⟨"Dialogue", "Hi."⟩]⟩) =
      ([{ type := "character", character_name := some "BOB",
          original_line_num := some 1 },
        { type := "parenthetical", text := some "(smiling)",
          original_line_num := some 2 },
        { type := "dialogue", character_name := some "BOB",
          dialogue_text := some "Hi.", text := some "Hi.",
          original_line_num := some 3 }], []) :=
  ⟨fun _ _ _ => rfl, rfl⟩

/-- C7 counterexample: the claim says the state is empty after processing
any paragraph whose kind is not Parenthetical, but a Character paragraph
is not a Parenthetical and leaves the state set (to the new character
element), not empty. -/
theorem state_reset_claim_counterexample :
    (Paragraph.mk "Character" "BOB").paragraph_type ≠ "Parenthetical" ∧
    (processParagraph none 1 ⟨"Character", "BOB"⟩).2.1 ≠ none := by
  refine ⟨?_, ?_⟩ <;> decide

/-- C7 amended: the state is initialized empty at the start of each parse
(the parse runs the loop from an empty state), is reset to empty after
processing any paragraph whose kind is neither Parenthetical nor
Character, and a Character paragraph sets it to the newly emitted
Character element. -/
theorem state_reset_amended :
    (∀ ps, ScriptParser.parseElements ps = (parseLoop ps none 0).1) ∧
    (∀ (cur : Option ScriptElement) (ln : Nat) (p : Paragraph),
      p.paragraph_type ≠ "Parenthetical" → p.paragraph_type ≠ "Character" →
      (processParagraph cur ln p).2.1 = none) ∧
    (∀ (cur : Option ScriptElement) (ln : Nat) (p : Paragraph),
      p.paragraph_type = "Character" →
      (processParagraph cur ln p).2.1 =
        some (processParagraph cur ln p).1 ∧
      (processParagraph cur ln p).1.type = "character") := by
  refine ⟨fun _ => rfl, ?_, ?_⟩
  · intro cur ln p h1 h2
    rcases cur with _ | ce <;> unfold processParagraph <;> split_ifs <;>
      simp_all
  · intro cur ln p h
    rcases cur with _ | ce <;> unfold processParagraph <;> split_ifs <;>
      simp_all

/-- C7 amended, witnessed at concrete inputs: an Action paragraph clears
the state and a Character paragraph sets it. -/
theorem state_reset_amended_witness :
    ("Action" : String) ≠ "Parenthetical" ∧ ("Action" : String) ≠ "Character" ∧
    (processParagraph (some dflt) 1 ⟨"Action", "x"⟩).2.1 = none ∧
    (processParagraph none 1 ⟨"Character", "BOB"⟩).2.1 =
      some (processParagraph none 1 ⟨"Character", "BOB"⟩).1 :=
  ⟨by decide, by decide,
   state_reset_amended.2.1 (some dflt) 1 ⟨"Action", "x"⟩ (by decide)
     (by decide),
   (state_reset_amended.2.2 none 1 ⟨"Character", "BOB"⟩ (by decide)).1⟩

/-- C8: any paragraph whose kind is none of the six recognized kinds is
emitted as an Action element with the original text preserved, and the
current-character state is cleared; in particular the kind "Shot" maps to
Action. -/
theorem unknown_kind_to_action :
    (∀ (cur : Option ScriptElement) (ln : Nat) (p : Paragraph),
      p.paragraph_type ≠ "Scene Heading" → p.paragraph_type ≠ "Character" →
      p.paragraph_type ≠ "Parenthetical" → p.paragraph_type ≠ "Dialogue" →
      p.paragraph_type ≠ "Action" → p.paragraph_type ≠ "Transition" →
      processParagraph cur ln p =
        ({ type := "action", text := some p.plain_text,
           original_line_num := some ln }, none, false)) ∧
    ScriptParser.parse_file (.screenplay ⟨some [⟨"Shot", "CLOSE ON"⟩]⟩) =
      ([{ type := "action", text := some "CLOSE ON",
          original_line_num := some 1 }], []) := by
  refine ⟨?_, rfl⟩
  intro cur ln p h1 h2 h3 h4 h5 h6
  rcases cur with _ | ce <;> unfold processParagraph <;> split_ifs <;>
    simp_all

/-- C8 witnessed at the concrete unrecognized kind "Shot". -/
theorem unknown_kind_to_action_witness :
    ("Shot" : String) ≠ "Scene Heading" ∧ ("Shot" : String) ≠ "Character" ∧
    ("Shot" : String) ≠ "Parenthetical" ∧ ("Shot" : String) ≠ "Dialogue" ∧
    ("Shot" : String) ≠ "Action" ∧ ("Shot" : String) ≠ "Transition" ∧
    processParagraph none 1 ⟨"Shot", "CLOSE ON"⟩ =
      ({ type := "action", text := some "CLOSE ON",
         original_line_num := some 1 }, none, false) :=
  ⟨by decide, by decide, by decide, by decide, by decide, by decide,
   unknown_kind_to_action.1 none 1 ⟨"Shot", "CLOSE ON"⟩ (by decide)
     (by decide) (by decide) (by decide) (by decide) (by decide)⟩

/-- C9: for every successfully decoded input the classification loop emits
exactly one element per paragraph: the output length equals the input
paragraph count. -/
theorem output_length_eq_input (ps : List Paragraph) :
    (ScriptParser.parseElements ps).length = ps.length := by
  rw [parseElements_eq, parseLoop_length]

/-- C10: the original_line_num field of the element at 0-based position i
is the 1-based index i+1 of its source paragraph in the decoded
sequence. -/
theorem line_num_is_index (ps : List Paragraph) (i : Nat)
    (h : i < (ScriptParser.parseElements ps).length) :
    ((ScriptParser.parseElements ps).getD i dflt).original_line_num =
      some (i + 1) := by
  rw [parseElements_eq] at h ⊢
  simpa using parseLoop_line_num ps none 0 i h

/-- C10 witnessed on a two-paragraph input at position 1. -/
theorem line_num_is_index_witness :
    1 < (ScriptParser.parseElements
        [⟨"Action", "x"⟩, ⟨"Action", "y"⟩]).length ∧
    ((ScriptParser.parseElements
        [⟨"Action", "x"⟩, ⟨"Action", "y"⟩]).getD 1 dflt).original_line_num =
      some 2 :=
  ⟨by decide,
   line_num_is_index [⟨"Action", "x"⟩, ⟨"Action", "y"⟩] 1 (by decide)⟩

end Cinescope
